import Mathlib

/-!
Shallow embedding of the optimistic mutation / cache-reconciliation core of
the kanban frontend:

* types and the column/status lookup tables from src/unnamed/part_011
  (the shared types module);
* the backend-to-frontend transforms from src/unnamed/part_006
  (kanban.service.ts);
* the board view-model helper from src/unnamed/part_002 (kanban-utils.ts);
* the optimistic-mutation hooks from src/app/src/hooks/useKanbanQueries.ts;
* the coordinator layer from src/unnamed/part_005 (useKanban.ts);
* the form validation schema from src/unnamed/part_003 (task-schema.ts) and
  the submit pipeline of src/app/src/components/kanban/TaskCreateForm.tsx;
* the drag-end handler of the board component in src/unnamed/part_007.

JavaScript strings are Lean `String`, numbers are `Nat`, `undefined`/`null`
fields are `Option`, and the query cache (which may be unpopulated) is
`Option (List Task)`.  Wall-clock reads (`Date.now()`,
`new Date().toISOString()`) are passed in as explicit parameters.
-/

namespace Kanban

/-- Task status enum `TaskStatus = "todo" | "in-progress" | "done"`. -/
inductive TaskStatus where
  | todo
  | inProgress
  | done
  deriving DecidableEq, Repr

/-- Priority enum `"low" | "medium" | "high"` (frontend-only field). -/
inductive TaskPriority where
  | low
  | medium
  | high
  deriving DecidableEq, Repr

/-- Frontend `Task` record (types module).  Optional fields are `Option`;
`backendId`, `columnId` and `order` are the backend-specific fields. -/
structure Task where
  id : String
  title : String
  description : Option String
  status : TaskStatus
  priority : Option TaskPriority
  createdAt : String
  updatedAt : String
  backendId : Option Nat
  columnId : Option Nat
  order : Option Nat
  deriving DecidableEq, Repr

/-- Backend task record `BackendTask` (types module); `description` is
nullable. -/
structure BackendTask where
  id : Nat
  title : String
  description : Option String
  column_id : Nat
  order : Nat
  created_at : String
  deriving DecidableEq, Repr

/-- Request body for task creation (`CreateTaskRequest`). -/
structure CreateTaskRequest where
  title : String
  description : Option String
  column_id : Nat
  order : Nat
  deriving DecidableEq, Repr

/-- Request body for task update (`UpdateTaskRequest`); every field is
optional and `description` is additionally nullable, hence the nested
`Option`. -/
structure UpdateTaskRequest where
  title : Option String
  description : Option (Option String)
  order : Option Nat
  deriving DecidableEq, Repr

/-- Column-id to status lookup table `COLUMN_STATUS_MAP` (a record keyed by
the numbers 1, 2, 3; any other key is absent, i.e. `undefined`). -/
def COLUMN_STATUS_MAP : Nat → Option TaskStatus
  | 1 => some .todo
  | 2 => some .inProgress
  | 3 => some .done
  | _ => none

/-- Status to column-id lookup table `STATUS_COLUMN_MAP` (total over the
three statuses). -/
def STATUS_COLUMN_MAP : TaskStatus → Nat
  | .todo => 1
  | .inProgress => 2
  | .done => 3

/-- The string value carried by each status (they are string literals in the
source; droppable ids compare against these strings). -/
def statusString : TaskStatus → String
  | .todo => "todo"
  | .inProgress => "in-progress"
  | .done => "done"

/-- JavaScript `s || fallback-to-absent` on an optional string: `null`,
`undefined` and the empty string are all falsy and collapse to absent. -/
def jsStrOrNone : Option String → Option String
  | none => none
  | some s => if s = "" then none else some s

/-- `transformBackendTask` (kanban.service.ts): convert a backend task to the
frontend shape.  An unmapped `column_id` falls back to `"todo"` via
`COLUMN_STATUS_MAP[backendTask.column_id] || "todo"`; `updatedAt` is set to
`created_at` (the backend has no update timestamp) and `priority` stays
`undefined`. -/
def transformBackendTask (backendTask : BackendTask) : Task :=
  let status := (COLUMN_STATUS_MAP backendTask.column_id).getD .todo
  { id := toString backendTask.id
    title := backendTask.title
    description := jsStrOrNone backendTask.description
    status := status
    priority := none
    createdAt := backendTask.created_at
    updatedAt := backendTask.created_at
    backendId := some backendTask.id
    columnId := some backendTask.column_id
    order := some backendTask.order }

/-- `getTasksByStatus` (kanban-utils.ts): filter the cached task list by the
`status` field, preserving cache order. -/
def getTasksByStatus (tasks : List Task) (status : TaskStatus) : List Task :=
  tasks.filter (fun task => decide (task.status = status))

/-- Input to `addTask` / `transformToCreateRequest`: a `Task` without
`id`/`createdAt`/`updatedAt` (only the fields those functions read). -/
structure NewTaskInput where
  title : String
  description : Option String
  status : TaskStatus
  deriving DecidableEq, Repr

/-- `transformToCreateRequest` (kanban.service.ts).  The source computes
`STATUS_COLUMN_MAP[task.status] || 1`; the table is total with non-zero
values, so the fallback is unreachable and the lookup is used directly.
`task.description || null` collapses `undefined` and `""` to null. -/
def transformToCreateRequest (task : NewTaskInput) (order : Nat) : CreateTaskRequest :=
  { title := task.title
    description := jsStrOrNone task.description
    column_id := STATUS_COLUMN_MAP task.status
    order := order }

/-- A `Partial<Task>` as consumed by `transformToUpdateRequest`: the three
fields that function reads, each possibly absent. -/
structure TaskUpdates where
  title : Option String
  description : Option String
  order : Option Nat
  deriving DecidableEq, Repr

/-- `transformToUpdateRequest` (kanban.service.ts): copy only the fields
present in the partial update; a present description goes through
`updates.description || null`. -/
def transformToUpdateRequest (updates : TaskUpdates) : UpdateTaskRequest :=
  { title := updates.title
    description :=
      match updates.description with
      | none => none
      | some s => some (jsStrOrNone (some s))
    order := updates.order }

/-!
Mutation hooks (useKanbanQueries.ts).  Each of the four mutation hooks has
the same skeleton: `onMutate` snapshots `previousTasks` from the cache,
applies its optimistic edit when a snapshot exists, and returns the snapshot
as context; `onError` writes the snapshot back when the context carries one.
The cache is `Option (List Task)` since `getQueryData` may be `undefined`.
-/

/-- The optimistic task built by `useCreateTask.onMutate`: a `temp-` time
based id, the `status` field hardcoded to `"todo"`, and column/order taken
from the request. -/
def optimisticTask (newTask : CreateTaskRequest) (nowMs : Nat) (nowIso : String) : Task :=
  { id := "temp-" ++ toString nowMs
    title := newTask.title
    description := jsStrOrNone newTask.description
    status := .todo
    priority := none
    createdAt := nowIso
    updatedAt := nowIso
    backendId := none
    columnId := some newTask.column_id
    order := some newTask.order }

/-- The spread `\x7b ...task, ...data, updatedAt: now \x7d` of
`useUpdateTask.onMutate`: fields present in the update request override the
task, `updatedAt` is stamped with the current time. -/
def applyUpdateData (task : Task) (data : UpdateTaskRequest) (nowIso : String) : Task :=
  { task with
    title :=
      match data.title with
      | none => task.title
      | some t => t
    description :=
      match data.description with
      | none => task.description
      | some d => d
    order :=
      match data.order with
      | none => task.order
      | some o => some o
    updatedAt := nowIso }

/-- One call into the mutation layer: the arguments of the four hooks of
useKanbanQueries.ts, with the wall-clock reads made explicit. -/
inductive MutationCall where
  | createTask (req : CreateTaskRequest) (nowMs : Nat) (nowIso : String)
  | updateTask (taskId : Nat) (data : UpdateTaskRequest) (nowIso : String)
  | deleteTask (taskId : Nat)
  | moveTask (taskId : Nat) (targetColumnId : Nat) (newOrder : Nat) (nowIso : String)
  deriving DecidableEq, Repr

/-- The optimistic edit each hook's `onMutate` performs on the cached list:
create appends the synthetic task; update maps `applyUpdateData` over the
tasks whose `backendId` strictly equals the target id; delete filters them
out; move rewrites their `columnId`/`order`/`updatedAt`. -/
def applyOptimistic (m : MutationCall) (tasks : List Task) : List Task :=
  match m with
  | .createTask req nowMs nowIso => tasks ++ [optimisticTask req nowMs nowIso]
  | .updateTask taskId data nowIso =>
      tasks.map (fun task =>
        if task.backendId = some taskId then applyUpdateData task data nowIso else task)
  | .deleteTask taskId =>
      tasks.filter (fun task => decide (task.backendId ≠ some taskId))
  | .moveTask taskId targetColumnId newOrder nowIso =>
      tasks.map (fun task =>
        if task.backendId = some taskId then
          { task with
            columnId := some targetColumnId
            order := some newOrder
            updatedAt := nowIso }
        else task)

/-- `onMutate` of every hook: snapshot `previousTasks := getQueryData(...)`,
apply the optimistic edit only when the snapshot is defined, and return the
new cache together with the `\x7b previousTasks \x7d` context. -/
def onMutate (m : MutationCall) (cache : Option (List Task)) :
    Option (List Task) × Option (List Task) :=
  let previousTasks := cache
  match previousTasks with
  | some prev => (some (applyOptimistic m prev), some prev)
  | none => (cache, none)

/-- `onError` of every hook: when the context carries a snapshot (any array,
empty included, is truthy), write it back; otherwise leave the cache as is. -/
def onError (context : Option (List Task)) (cache : Option (List Task)) :
    Option (List Task) :=
  match context with
  | some previousTasks => some previousTasks
  | none => cache

/-!
Coordinator layer (useKanban.ts): resolves the string task id against the
cached list, requires a backend id, and assembles the request the
corresponding mutation hook is invoked with.
-/

/-- Arguments handed to `moveTaskMutation.mutate`. -/
structure MoveTaskVars where
  taskId : Nat
  targetColumnId : Nat
  newOrder : Nat
  deriving DecidableEq, Repr

/-- Arguments handed to `updateTaskMutation.mutate`. -/
structure UpdateTaskVars where
  taskId : Nat
  data : UpdateTaskRequest
  deriving DecidableEq, Repr

/-- The errors of the coordinator layer.  `notSynced` is the spec's name for
the early-return branch `if (!task || !task.backendId)` that logs and
returns without mutating anything. -/
inductive KanbanError where
  | notSynced
  deriving DecidableEq, Repr

/-- `useKanban.moveTask`: find the task by client id, bail out when it is
missing or lacks a truthy backend id (in JavaScript the guard
`!task.backendId` also fires on the number 0), then compute the target
column via `STATUS_COLUMN_MAP` and the new order as the count of cached
tasks whose status equals the target status. -/
def moveTask (tasks : List Task) (taskId : String) (newStatus : TaskStatus) :
    Option MoveTaskVars :=
  match tasks.find? (fun t => decide (t.id = taskId)) with
  | none => none
  | some task =>
    match task.backendId with
    | none => none
    | some backendId =>
      if backendId = 0 then none
      else
        some { taskId := backendId
               targetColumnId := STATUS_COLUMN_MAP newStatus
               newOrder := (tasks.filter (fun t => decide (t.status = newStatus))).length }

/-- `useKanban.addTask`: the new order is the count of cached tasks sharing
the input's status; the create request is assembled by
`transformToCreateRequest`. -/
def addTask (tasks : List Task) (task : NewTaskInput) : CreateTaskRequest :=
  let tasksInColumn := tasks.filter (fun t => decide (t.status = task.status))
  transformToCreateRequest task tasksInColumn.length

/-- `useKanban.updateTask`: find the task by client id; the single guard
`if (!task || !task.backendId)` covers a missing task, an absent backend id
and the falsy backend id 0, and ends the call without any mutation
(modelled as the spec's `notSynced` error). -/
def updateTask (tasks : List Task) (taskId : String) (updates : TaskUpdates) :
    Except KanbanError UpdateTaskVars :=
  match tasks.find? (fun t => decide (t.id = taskId)) with
  | none => .error .notSynced
  | some task =>
    match task.backendId with
    | none => .error .notSynced
    | some backendId =>
      if backendId = 0 then .error .notSynced
      else .ok { taskId := backendId, data := transformToUpdateRequest updates }

/-- Driver for one `updateTask` call: on the early-return branch nothing
touches the cache; otherwise the update hook's optimistic edit is applied. -/
def runUpdateTask (tasks : List Task) (taskId : String) (updates : TaskUpdates)
    (nowIso : String) (cache : Option (List Task)) :
    Except KanbanError UpdateTaskVars × Option (List Task) :=
  match updateTask tasks taskId updates with
  | .error e => (.error e, cache)
  | .ok vars => (.ok vars, (onMutate (.updateTask vars.taskId vars.data nowIso) cache).1)

/-!
Form validation (task-schema.ts) and the create-form submit pipeline
(TaskCreateForm.tsx).  In the zod chain
`z.string().min(3).max(200).trim()` the length checks run on the string as
submitted and the trim transform is applied afterwards.
-/

/-- The validated form values (`TaskCreateFormValues`). -/
structure TaskCreateFormValues where
  title : String
  description : String
  status : TaskStatus
  deriving DecidableEq, Repr

/-- The title branch of `taskCreateSchema`: `min(3)`, then `max(200)`, then
the `trim` transform. -/
def parseTitle (title : String) : Except String String :=
  if title.length < 3 then .error "Title must be at least 3 characters"
  else if 200 < title.length then .error "Title must not exceed 200 characters"
  else .ok title.trim

/-- `taskCreateSchema` applied to the form fields: the title is length
checked and trimmed, the description is trimmed (no length limit), the
status is already one of the three enum values by typing. -/
def taskCreateSchema (title description : String) (status : TaskStatus) :
    Except String TaskCreateFormValues :=
  match parseTitle title with
  | .error e => .error e
  | .ok t => .ok { title := t, description := description.trim, status := status }

/-- `TaskCreateForm.onSubmit` behind `form.handleSubmit`: when the resolver
rejects, `onSubmit` never runs, so no create request is built and the cache
is untouched; when it accepts, `addTask` assembles the request (with
`data.description || undefined`) and the create hook's optimistic edit is
applied to the cache. -/
def submitTaskCreateForm (title description : String) (status : TaskStatus)
    (tasks : List Task) (nowMs : Nat) (nowIso : String) (cache : Option (List Task)) :
    Option CreateTaskRequest × Option (List Task) :=
  match taskCreateSchema title description status with
  | .error _ => (none, cache)
  | .ok v =>
    let input : NewTaskInput :=
      { title := v.title
        description := jsStrOrNone (some v.description)
        status := v.status }
    let req := addTask tasks input
    (some req, (onMutate (.createTask req nowMs nowIso) cache).1)

/-!
Drag gesture handling (KanbanBoard in src/unnamed/part_007).
-/

/-- A dnd-kit drag-end event: the dragged element's id and the droppable the
pointer is over at release, if any. -/
structure DragEndEvent where
  activeId : String
  overId : Option String
  deriving DecidableEq, Repr

/-- `KanbanBoard.handleDragEnd`: with no `over` target, only
`setActiveTask(null)` runs; otherwise `over.id` is compared against the
rendered column statuses (`columns.includes(newStatus)`, a string
comparison) and `moveTask` is requested only on a match.  The result is the
requested move call (task id and target status), if any, paired with the new
`activeTask` state, which is reset to `null` on every exit path. -/
def handleDragEnd (columns : List TaskStatus) (ev : DragEndEvent) :
    Option (String × TaskStatus) × Option Task :=
  match ev.overId with
  | none => (none, none)
  | some overId =>
    match columns.find? (fun c => decide (statusString c = overId)) with
    | some newStatus => (some (ev.activeId, newStatus), none)
    | none => (none, none)

/-- Driver for one drag-end: when the handler requests no move, the cache is
left alone; when it does, the coordinator's `moveTask` runs and, when it
produces mutation arguments, the move hook's optimistic edit is applied. -/
def runDragEnd (columns : List TaskStatus) (tasks : List Task) (ev : DragEndEvent)
    (nowIso : String) (cache : Option (List Task)) :
    Option MoveTaskVars × Option (List Task) × Option Task :=
  match handleDragEnd columns ev with
  | (none, a) => (none, cache, a)
  | (some (taskId, newStatus), a) =>
    match moveTask tasks taskId newStatus with
    | none => (none, cache, a)
    | some vars =>
      (some vars,
       (onMutate (.moveTask vars.taskId vars.targetColumnId vars.newOrder nowIso) cache).1,
       a)

/-!
Concrete instances used to evaluate the definitions on specific inputs.
-/

/-- Create-form input with the "in-progress" status. -/
def c2Input : NewTaskInput :=
  { title := "Write docs", description := none, status := .inProgress }

/-- The create request `addTask` assembles for `c2Input` on an empty cache. -/
def c2Req : CreateTaskRequest := addTask [] c2Input

/-- The synthetic task `useCreateTask.onMutate` inserts for `c2Req`. -/
def c2Opt : Task := optimisticTask c2Req 1700000000000 "2023-11-14T22:13:20.000Z"

/-- A backend task whose `column_id` 99 has no entry in
`COLUMN_STATUS_MAP`. -/
def c3Backend : BackendTask :=
  { id := 42, title := "orphan", description := none, column_id := 99
    order := 0, created_at := "2024-01-01T00:00:00Z" }

/-- A todo task with intra-column order 5, cached first. -/
def c4TaskLate : Task :=
  { id := "a", title := "cached first", description := none, status := .todo
    priority := none, createdAt := "t0", updatedAt := "t0"
    backendId := some 1, columnId := some 1, order := some 5 }

/-- A todo task with intra-column order 0, cached second. -/
def c4TaskEarly : Task :=
  { id := "b", title := "cached second", description := none, status := .todo
    priority := none, createdAt := "t0", updatedAt := "t0"
    backendId := some 2, columnId := some 1, order := some 0 }

/-- A server-synced task (backend id 7) currently in the in-progress
column. -/
def c5Task7 : Task :=
  { id := "7", title := "ship it", description := none, status := .inProgress
    priority := none, createdAt := "t0", updatedAt := "t0"
    backendId := some 7, columnId := some 2, order := some 0 }

/-- A task already in the done column, so that column holds one task. -/
def c5TaskDone : Task :=
  { id := "9", title := "landed", description := none, status := .done
    priority := none, createdAt := "t0", updatedAt := "t0"
    backendId := some 9, columnId := some 3, order := some 0 }

/-- A still-synthetic task: temporary id, no backend id. -/
def c6Task : Task :=
  { id := "temp-1730000000000", title := "draft", description := none
    status := .todo, priority := none, createdAt := "t0", updatedAt := "t0"
    backendId := none, columnId := some 1, order := some 0 }

/-- A drag-end event released over a droppable that is not a column. -/
def c9Event : DragEndEvent := { activeId := "7", overId := some "trash" }

/-- The three rendered column statuses. -/
def c9Columns : List TaskStatus := [.todo, .inProgress, .done]

/-!
Theorems.
-/

/-- Claim C1: for every mutation call (create, update, delete, move), the
rollback the error handler performs leaves the cached task list equal by
value to the snapshot taken immediately before the optimistic edit was
applied: `onError` with the context produced by `onMutate` restores the
pre-mutation cache exactly. -/
theorem rollback_restores_snapshot (m : MutationCall) (cache : Option (List Task)) :
    onError (onMutate m cache).2 (onMutate m cache).1 = cache := by
  cases cache <;> simp [onMutate, onError]

/-- Claim C2 (counterexample): creating a task with status "in-progress" on
an empty cache inserts a synthetic task whose `columnId` is 2 (the
in-progress column) but whose `status` field is hardcoded "todo", so the
view-model lists it in the todo column and the in-progress column stays
empty — the synthetic task does not appear under the column derived from
the input status. -/
theorem createTask_nontodo_status_counterexample :
    (onMutate (.createTask c2Req 1700000000000 "2023-11-14T22:13:20.000Z")
        (some ([] : List Task))).1 = some [c2Opt] ∧
    c2Opt.columnId = some 2 ∧
    c2Opt.status = .todo ∧
    getTasksByStatus [c2Opt] .inProgress = [] ∧
    getTasksByStatus [c2Opt] .todo = [c2Opt] :=
  ⟨rfl, rfl, rfl, rfl, rfl⟩

/-- Claim C2 (amended): before the network call settles, `addTask` followed
by the create hook's optimistic edit appends to the cache a synthetic task
with a time-based `temp-` id whose `columnId` is the mapping's image of the
input status and whose `order` equals the count of cached tasks carrying
that status; but its `status` field is hardcoded "todo", so the view-model
shows it in the todo column (hence under the target column exactly when the
input status is "todo", as in Scenario A). -/
theorem createTask_optimistic_amended (tasks : List Task) (input : NewTaskInput)
    (nowMs : Nat) (nowIso : String) :
    (onMutate (.createTask (addTask tasks input) nowMs nowIso) (some tasks)).1
      = some (tasks ++ [optimisticTask (addTask tasks input) nowMs nowIso]) ∧
    (optimisticTask (addTask tasks input) nowMs nowIso).id = "temp-" ++ toString nowMs ∧
    (optimisticTask (addTask tasks input) nowMs nowIso).columnId
      = some (STATUS_COLUMN_MAP input.status) ∧
    (optimisticTask (addTask tasks input) nowMs nowIso).order
      = some (getTasksByStatus tasks input.status).length ∧
    (optimisticTask (addTask tasks input) nowMs nowIso).status = .todo ∧
    optimisticTask (addTask tasks input) nowMs nowIso
      ∈ getTasksByStatus (tasks ++ [optimisticTask (addTask tasks input) nowMs nowIso]) .todo := by
  refine ⟨rfl, rfl, rfl, rfl, rfl, ?_⟩
  simp [getTasksByStatus, List.mem_filter, optimisticTask]

/-- Claim C3 (counterexample): a backend task whose column id 99 is absent
from `COLUMN_STATUS_MAP` is not dropped: the transform assigns it status
"todo" and the view-model lists it in the todo column. -/
theorem unmapped_column_shown_in_todo_counterexample :
    COLUMN_STATUS_MAP c3Backend.column_id = none ∧
    (transformBackendTask c3Backend).status = .todo ∧
    transformBackendTask c3Backend
      ∈ getTasksByStatus [transformBackendTask c3Backend] .todo := by
  refine ⟨rfl, rfl, ?_⟩
  decide

/-- Claim C3 (amended): a task whose column id has no entry in the
column-to-status mapping is not excluded: `transformBackendTask` falls back
to status "todo", so whenever such a task is in the cache the view-model
lists it in the todo column. -/
theorem unmapped_column_defaults_to_todo (backendTask : BackendTask)
    (h : COLUMN_STATUS_MAP backendTask.column_id = none) :
    (transformBackendTask backendTask).status = .todo ∧
    ∀ tasks : List Task, transformBackendTask backendTask ∈ tasks →
      transformBackendTask backendTask ∈ getTasksByStatus tasks .todo := by
  have hst : (transformBackendTask backendTask).status = .todo := by
    simp [transformBackendTask, h]
  refine ⟨hst, fun tasks hmem => ?_⟩
  simp only [getTasksByStatus, List.mem_filter, decide_eq_true_eq]
  exact ⟨hmem, hst⟩

/-- Witness for the amended claim C3, at the concrete backend task with
column id 99. -/
theorem unmapped_column_defaults_to_todo_witness :
    COLUMN_STATUS_MAP c3Backend.column_id = none ∧
    ((transformBackendTask c3Backend).status = .todo ∧
     ∀ tasks : List Task, transformBackendTask c3Backend ∈ tasks →
       transformBackendTask c3Backend ∈ getTasksByStatus tasks .todo) :=
  ⟨rfl, unmapped_column_defaults_to_todo c3Backend rfl⟩

/-- Claim C4 (counterexample): with two cached todo tasks whose order fields
are 5 then 0, `getTasksByStatus` returns them in cache order, which is not
ascending in the order field, so the view-model does not sort by the order
field. -/
theorem getTasksByStatus_unsorted_counterexample :
    getTasksByStatus [c4TaskLate, c4TaskEarly] .todo = [c4TaskLate, c4TaskEarly] ∧
    (getTasksByStatus [c4TaskLate, c4TaskEarly] .todo).map (fun t => t.order.getD 0)
      = [5, 0] ∧
    ¬ List.Sorted (fun a b : Task => a.order.getD 0 ≤ b.order.getD 0)
        (getTasksByStatus [c4TaskLate, c4TaskEarly] .todo) := by
  refine ⟨rfl, rfl, ?_⟩
  intro h
  have h50 := List.rel_of_sorted_cons (by exact h) c4TaskEarly (by decide)
  exact absurd h50 (by decide)

/-- Claim C4 (amended): for every known status, the view-model produces
exactly the cached tasks whose status field equals that status, preserving
the cache list's relative order (a sublist of the cache); it performs no
sorting by the order field. -/
theorem getTasksByStatus_filter_amended (tasks : List Task) (status : TaskStatus) :
    (getTasksByStatus tasks status).Sublist tasks ∧
    ∀ task : Task, task ∈ getTasksByStatus tasks status ↔
      task ∈ tasks ∧ task.status = status := by
  constructor
  · exact List.filter_sublist tasks
  · intro task
    simp [getTasksByStatus, List.mem_filter]

/-- Claim C5: for a cached task carrying a server-assigned id, `moveTask`
sends the mapping's image of the target status as column id and, as new
order, the count of cached tasks in the target column (append-to-end); the
optimistic edit sets exactly those fields on the moved task, and the error
handler's rollback restores the pre-move cache, so the task reverts to its
pre-move column and order. -/
theorem moveTask_append_to_end_and_rollback (tasks : List Task) (taskId : String)
    (newStatus : TaskStatus) (nowIso : String) (task : Task) (backendId : Nat)
    (hfind : tasks.find? (fun t => decide (t.id = taskId)) = some task)
    (hbid : task.backendId = some backendId) (hpos : backendId ≠ 0) :
    moveTask tasks taskId newStatus =
      some { taskId := backendId
             targetColumnId := STATUS_COLUMN_MAP newStatus
             newOrder := (getTasksByStatus tasks newStatus).length } ∧
    (∀ t ∈ applyOptimistic
        (.moveTask backendId (STATUS_COLUMN_MAP newStatus)
          (getTasksByStatus tasks newStatus).length nowIso) tasks,
      t.backendId = some backendId →
        t.columnId = some (STATUS_COLUMN_MAP newStatus) ∧
        t.order = some (getTasksByStatus tasks newStatus).length) ∧
    onError
      (onMutate (.moveTask backendId (STATUS_COLUMN_MAP newStatus)
        (getTasksByStatus tasks newStatus).length nowIso) (some tasks)).2
      (onMutate (.moveTask backendId (STATUS_COLUMN_MAP newStatus)
        (getTasksByStatus tasks newStatus).length nowIso) (some tasks)).1
      = some tasks := by
  refine ⟨?_, ?_, ?_⟩
  · simp [moveTask, hfind, hbid, hpos, getTasksByStatus]
  · intro t ht hb
    simp only [applyOptimistic] at ht
    obtain ⟨u, hu, rfl⟩ := List.mem_map.mp ht
    by_cases hcase : u.backendId = some backendId
    · simp [hcase]
    · rw [if_neg hcase] at hb
      exact absurd hb hcase
  · simp [onMutate, onError]

/-- Witness for claim C5: Scenario B — task 7 moved to "done" while the done
column holds one task gets column id 3 and order 1, and rollback restores
the original cache. -/
theorem moveTask_append_to_end_and_rollback_witness :
    ([c5Task7, c5TaskDone].find? (fun t => decide (t.id = "7")) = some c5Task7) ∧
    c5Task7.backendId = some 7 ∧ (7 : Nat) ≠ 0 ∧
    (moveTask [c5Task7, c5TaskDone] "7" .done =
        some { taskId := 7, targetColumnId := 3, newOrder := 1 } ∧
      (∀ t ∈ applyOptimistic (.moveTask 7 3 1 "t1") [c5Task7, c5TaskDone],
        t.backendId = some 7 → t.columnId = some 3 ∧ t.order = some 1) ∧
      onError (onMutate (.moveTask 7 3 1 "t1") (some [c5Task7, c5TaskDone])).2
        (onMutate (.moveTask 7 3 1 "t1") (some [c5Task7, c5TaskDone])).1
        = some [c5Task7, c5TaskDone]) :=
  ⟨by decide, rfl, by decide,
   moveTask_append_to_end_and_rollback [c5Task7, c5TaskDone] "7" .done "t1" c5Task7 7
     (by decide) rfl (by decide)⟩

/-- Claim C6: calling the coordinator's update with the id of a cached task
that has no server-assigned backend id ends in the `notSynced` early return
and performs no cache mutation: the cached task list is unchanged. -/
theorem updateTask_notSynced_no_mutation (tasks : List Task) (taskId : String)
    (updates : TaskUpdates) (nowIso : String) (cache : Option (List Task)) (task : Task)
    (hfind : tasks.find? (fun t => decide (t.id = taskId)) = some task)
    (hsyn : task.backendId = none) :
    runUpdateTask tasks taskId updates nowIso cache = (.error .notSynced, cache) := by
  simp [runUpdateTask, updateTask, hfind, hsyn]

/-- Witness for claim C6: Scenario C — updating the still-synthetic task
with id "temp-1730000000000" fails without touching the cache. -/
theorem updateTask_notSynced_no_mutation_witness :
    ([c6Task].find? (fun t => decide (t.id = "temp-1730000000000")) = some c6Task) ∧
    c6Task.backendId = none ∧
    runUpdateTask [c6Task] "temp-1730000000000"
        { title := some "new title", description := none, order := none }
        "t1" (some [c6Task])
      = (.error .notSynced, some [c6Task]) :=
  ⟨by decide, rfl,
   updateTask_notSynced_no_mutation [c6Task] "temp-1730000000000"
     { title := some "new title", description := none, order := none }
     "t1" (some [c6Task]) c6Task (by decide) rfl⟩

/-- Claim C7: a create-form submission whose title is shorter than 3 or
longer than 200 characters is rejected by the schema before anything else
happens: no create request is assembled and the cache is untouched. -/
theorem taskCreateForm_rejects_bad_title (title description : String)
    (status : TaskStatus) (tasks : List Task) (nowMs : Nat) (nowIso : String)
    (cache : Option (List Task))
    (h : title.length < 3 ∨ 200 < title.length) :
    submitTaskCreateForm title description status tasks nowMs nowIso cache
      = (none, cache) := by
  rcases h with h | h
  · simp [submitTaskCreateForm, taskCreateSchema, parseTitle, h]
  · have h3 : ¬ title.length < 3 := by omega
    simp [submitTaskCreateForm, taskCreateSchema, parseTitle, h3, h]

/-- Witness for claim C7: submitting the two-character title "ab" is
rejected and the cache stays as it was. -/
theorem taskCreateForm_rejects_bad_title_witness :
    ("ab".length < 3 ∨ 200 < "ab".length) ∧
    submitTaskCreateForm "ab" "" .todo [] 0 "t0" (some [])
      = (none, some []) :=
  ⟨Or.inl (by decide),
   taskCreateForm_rejects_bad_title "ab" "" .todo [] 0 "t0" (some [])
     (Or.inl (by decide))⟩

/-- Claim C8: the two lookup tables are mutually inverse over the three
known statuses: every status round-trips through `STATUS_COLUMN_MAP` then
`COLUMN_STATUS_MAP`, and each of the column ids 1, 2, 3 round-trips through
`COLUMN_STATUS_MAP` then `STATUS_COLUMN_MAP`. -/
theorem column_status_maps_inverse :
    (∀ s : TaskStatus, COLUMN_STATUS_MAP (STATUS_COLUMN_MAP s) = some s) ∧
    (COLUMN_STATUS_MAP 1).map STATUS_COLUMN_MAP = some 1 ∧
    (COLUMN_STATUS_MAP 2).map STATUS_COLUMN_MAP = some 2 ∧
    (COLUMN_STATUS_MAP 3).map STATUS_COLUMN_MAP = some 3 := by
  refine ⟨fun s => ?_, rfl, rfl, rfl⟩
  cases s <;> rfl

/-- Claim C9: a drag gesture that ends with no drop target, or over a drop
target whose id matches no rendered column, issues no move call, leaves the
cache unchanged, and only resets the active-task state to idle. -/
theorem dragEnd_without_target_noop (columns : List TaskStatus) (tasks : List Task)
    (ev : DragEndEvent) (nowIso : String) (cache : Option (List Task))
    (h : ev.overId = none ∨
      ∃ oid, ev.overId = some oid ∧ ∀ c ∈ columns, statusString c ≠ oid) :
    runDragEnd columns tasks ev nowIso cache = (none, cache, none) := by
  rcases h with h | ⟨oid, hov, hall⟩
  · simp [runDragEnd, handleDragEnd, h]
  · have hfind : columns.find? (fun c => decide (statusString c = oid)) = none := by
      rw [List.find?_eq_none]
      intro c hc
      simpa using hall c hc
    simp [runDragEnd, handleDragEnd, hov, hfind]

/-- Witness for claim C9: releasing over the non-column droppable "trash"
with all three columns rendered issues no move and keeps the cache. -/
theorem dragEnd_without_target_noop_witness :
    (c9Event.overId = none ∨
      ∃ oid, c9Event.overId = some oid ∧ ∀ c ∈ c9Columns, statusString c ≠ oid) ∧
    runDragEnd c9Columns [c5Task7] c9Event "t1" (some [c5Task7])
      = (none, some [c5Task7], none) :=
  ⟨Or.inr ⟨"trash", rfl, by decide⟩,
   dragEnd_without_target_noop c9Columns [c5Task7] c9Event "t1" (some [c5Task7])
     (Or.inr ⟨"trash", rfl, by decide⟩)⟩

/-- Claim C10: the backend-to-frontend transform always sets `updatedAt` to
the backend record's `created_at` (which is also `createdAt`) and leaves
`priority` undefined, so no task fetched from the store carries a distinct
update time or a priority. -/
theorem transformBackendTask_timestamps_priority (backendTask : BackendTask) :
    (transformBackendTask backendTask).updatedAt = backendTask.created_at ∧
    (transformBackendTask backendTask).createdAt = backendTask.created_at ∧
    (transformBackendTask backendTask).priority = none :=
  ⟨rfl, rfl, rfl⟩

end Kanban
